import Mathlib

/-!
Verification development for the `paket` fetching/parsing core (`src/http.rs`).

Byte streams are modelled as `List Nat` (each element one byte); a transport
is the list of successive `read_buf` results.  All definitions are direct
transcriptions of the Rust source; titles are kept as raw byte lists (the
source applies `String::from_utf8_lossy` at the very end, which is the
identity on the ASCII content used throughout).
-/

namespace Paket

/-- Byte sequence of an ASCII string literal, used to write concrete inputs. -/
def ascii (s : String) : List Nat :=
  s.data.map Char.toNat

/-- ASCII lower-casing of one byte, as in Rust `u8::to_ascii_lowercase`. -/
def toLowerAscii (b : Nat) : Nat :=
  if 65 ≤ b ∧ b ≤ 90 then b + 32 else b

/-- Rust `eq_ignore_ascii_case` on byte sequences: equal length and
bytewise equality after ASCII lower-casing. -/
def eqIgnoreAsciiCase (a b : List Nat) : Bool :=
  a.map toLowerAscii == b.map toLowerAscii

/-- Rust `memchr::memchr`: index of the first occurrence of byte `c`. -/
def memchr (c : Nat) (l : List Nat) : Option Nat :=
  List.findIdx? (fun b => b == c) l

/-- Continuation byte test for UTF-8 (`0x80..=0xBF`). -/
def utf8Cont (b : Nat) : Bool :=
  decide (128 ≤ b ∧ b ≤ 191)

/-- Fuelled UTF-8 validator; the fuel only bounds the number of decoded
scalars, so `l.length` fuel is always enough. -/
def validUtf8Fuel : Nat → List Nat → Bool
  | _, [] => true
  | 0, _ :: _ => false
  | fuel + 1, b :: rest =>
    if b ≤ 127 then validUtf8Fuel fuel rest
    else if 194 ≤ b ∧ b ≤ 223 then
      match rest with
      | c1 :: r => utf8Cont c1 && validUtf8Fuel fuel r
      | [] => false
    else if b = 224 then
      match rest with
      | c1 :: c2 :: r => decide (160 ≤ c1 ∧ c1 ≤ 191) && utf8Cont c2 && validUtf8Fuel fuel r
      | _ => false
    else if 225 ≤ b ∧ b ≤ 236 then
      match rest with
      | c1 :: c2 :: r => utf8Cont c1 && utf8Cont c2 && validUtf8Fuel fuel r
      | _ => false
    else if b = 237 then
      match rest with
      | c1 :: c2 :: r => decide (128 ≤ c1 ∧ c1 ≤ 159) && utf8Cont c2 && validUtf8Fuel fuel r
      | _ => false
    else if 238 ≤ b ∧ b ≤ 239 then
      match rest with
      | c1 :: c2 :: r => utf8Cont c1 && utf8Cont c2 && validUtf8Fuel fuel r
      | _ => false
    else if b = 240 then
      match rest with
      | c1 :: c2 :: c3 :: r =>
        decide (144 ≤ c1 ∧ c1 ≤ 191) && utf8Cont c2 && utf8Cont c3 && validUtf8Fuel fuel r
      | _ => false
    else if 241 ≤ b ∧ b ≤ 243 then
      match rest with
      | c1 :: c2 :: c3 :: r => utf8Cont c1 && utf8Cont c2 && utf8Cont c3 && validUtf8Fuel fuel r
      | _ => false
    else if b = 244 then
      match rest with
      | c1 :: c2 :: c3 :: r =>
        decide (128 ≤ c1 ∧ c1 ≤ 143) && utf8Cont c2 && utf8Cont c3 && validUtf8Fuel fuel r
      | _ => false
    else false

/-- Rust `str::from_utf8` success predicate on a byte sequence. -/
def validUtf8 (l : List Nat) : Bool :=
  validUtf8Fuel l.length l

/-! ### Title extractor (`HtmlBodyReader::extract_title`)

The Rust function is a loop over a four-state machine; within one loop
round the only `continue` edges are `Start → Name` (after draining through
a `<`) and `Name → Attributes` (on a tag match); every other branch falls
through to a `read_buf` call, and a read of zero bytes breaks the loop,
yielding `Ok(None)`.  `stepT` computes exactly what one round does before
the fall-through read; `runExtract` supplies the successive reads. -/

/-- State of the title-extraction machine (`enum State` in `extract_title`).
`value` carries the accumulated title bytes. -/
inductive TState
  | start
  | name
  | attributes
  | value (title : List Nat)
deriving DecidableEq, Repr

/-- Outcome of processing the buffered bytes until the machine either
returns a title, fails UTF-8 validation of a tag name, or falls through to
the `read_buf` call with a new state and buffer. -/
inductive StepOut
  | ret (title : List Nat)
  | err
  | more (s : TState) (buffer : List Nat)
deriving DecidableEq, Repr

/-- `HTML_TITLE_TAG` (`"title"`, 5 bytes). -/
def htmlTitleTag : List Nat := ascii "title"

/-- The `State::Value` arm: on a `<`, finalize everything before it as the
title; otherwise append the whole buffer and clear it, then fall through to
the read. -/
def stepValue (title buffer : List Nat) : StepOut :=
  match memchr 60 buffer with
  | some tagStart => .ret (title ++ buffer.take tagStart)
  | none => .more (.value (title ++ buffer)) []

/-- The `State::Attributes` arm: drain through the first `>` and move to
`Value` (falling through to the read, as in the source there is no
`continue` here), or clear the buffer if no `>` is present. -/
def stepAttributes (buffer : List Nat) : StepOut :=
  match memchr 62 buffer with
  | some tagEnd => .more (.value []) (buffer.drop (tagEnd + 1))
  | none => .more .attributes []

/-- The `State::Name` arm: with at least 5 buffered bytes, compare the
leading 5 bytes (checked to be UTF-8, as `str::from_utf8` can fail)
case-insensitively against `"title"`; on a match continue straight into the
`Attributes` arm, otherwise return to `Start` and fall through to the read. -/
def stepName (buffer : List Nat) : StepOut :=
  if buffer.length ≥ htmlTitleTag.length then
    if validUtf8 (buffer.take htmlTitleTag.length) then
      if eqIgnoreAsciiCase htmlTitleTag (buffer.take htmlTitleTag.length) then stepAttributes buffer
      else .more .start buffer
    else .err
  else .more .name buffer

/-- The `State::Start` arm: drain through the first `<` and continue
straight into the `Name` arm; with no `<`, drain all but the trailing
`HTML_TITLE_TAG.len()` bytes (`drain(..len.saturating_sub(5))`). -/
def stepStart (buffer : List Nat) : StepOut :=
  match memchr 60 buffer with
  | some tagStart => stepName (buffer.drop (tagStart + 1))
  | none => .more .start (buffer.drop (buffer.length - htmlTitleTag.length))

/-- One loop round of `extract_title`: process the buffer in the current
state up to the fall-through `read_buf` call. -/
def stepT : TState → List Nat → StepOut
  | .start, b => stepStart b
  | .name, b => stepName b
  | .attributes, b => stepAttributes b
  | .value t, b => stepValue t b

/-- The `extract_title` loop: after each fall-through the stream is read;
zero bytes read breaks the loop with `Ok(None)`, otherwise the read bytes
are appended to the buffer and the loop continues.  `chunks` lists the
successive `read_buf` results; an exhausted list is end of stream. -/
def runExtract : TState → List Nat → List (List Nat) → Except Unit (Option (List Nat))
  | s, buffer, [] =>
    match stepT s buffer with
    | .ret t => .ok (some t)
    | .err => .error ()
    | .more _ _ => .ok none
  | s, buffer, c :: rest =>
    match stepT s buffer with
    | .ret t => .ok (some t)
    | .err => .error ()
    | .more s' b' => if c.isEmpty then .ok none else runExtract s' (b' ++ c) rest

/-- `HtmlBodyReader::extract_title`: run the machine from `Start` on the
pre-existing buffer, reading `chunks` from the transport as needed. -/
def extractTitle (buffer : List Nat) (chunks : List (List Nat)) : Except Unit (Option (List Nat)) :=
  runExtract .start buffer chunks

/-! ### Line reader (`LineReader::next_line` / `LineReader::read_more`)

The transport is a list of `read_buf` results; `.ok c` is a successful read
of the bytes `c` (empty meaning zero bytes read, i.e. end of stream) and
`.error ()` an I/O error.  `read_more` in the source calls
`.unwrap()` on the read result, so an I/O error is a panic, modelled as the
distinguished outcome `panicked` (distinct from the typed `anyhow` failures
modelled by `fail`). -/

/-- Typed (`anyhow`) failures `next_line` can produce: `bail!("no data")`
on a zero-byte read, and a `str::from_utf8` failure on the returned line. -/
inductive LRErr
  | noData
  | badUtf8
deriving DecidableEq, Repr

/-- Result of one `next_line` call: a returned line together with the
reader's buffer, offset and remaining transport after the call, a typed
failure, or a panic from the `unwrap` in `read_more`. -/
inductive LROut
  | line (l : List Nat) (buffer : List Nat) (offset : Nat)
      (stream : List (Except Unit (List Nat)))
  | fail (e : LRErr)
  | panicked
deriving Repr

/-- The `loop` inside `next_line`: look for `\n` in `buffer[offset..]`; on a
hit, return the line up to it minus a trailing `\r` slot
(`line_end.saturating_sub(1)`) and advance `offset` past the terminator; on
a miss, `drain(offset..)` (which keeps the prefix `buffer.take offset`),
reset `offset` and read more. -/
def nextLineLoop : List Nat → Nat → List (Except Unit (List Nat)) → LROut
  | buffer, offset, [] =>
    match memchr 10 (buffer.drop offset) with
    | some lineEnd =>
      let l := (buffer.drop offset).take (lineEnd - 1)
      if validUtf8 l then .line l buffer (offset + l.length + 2) []
      else .fail .badUtf8
    | none => .fail .noData
  | buffer, offset, r :: rest =>
    match memchr 10 (buffer.drop offset) with
    | some lineEnd =>
      let l := (buffer.drop offset).take (lineEnd - 1)
      if validUtf8 l then .line l buffer (offset + l.length + 2) (r :: rest)
      else .fail .badUtf8
    | none =>
      match r with
      | .error _ => .panicked
      | .ok c =>
        if c.isEmpty then .fail .noData
        else nextLineLoop (buffer.take offset ++ c) 0 rest

/-- `LineReader::next_line`: if the buffer is empty, `read_more` first, then
run the scan loop. -/
def nextLine (buffer : List Nat) (offset : Nat)
    (stream : List (Except Unit (List Nat))) : LROut :=
  if buffer.isEmpty then
    match stream with
    | [] => .fail .noData
    | .error _ :: _ => .panicked
    | .ok c :: rest =>
      if c.isEmpty then .fail .noData
      else nextLineLoop (buffer ++ c) offset rest
  else nextLineLoop buffer offset stream

/-! ### URL model (the `url` crate, as exercised by `http.rs`)

`http.rs` relies on the `url` crate for `Url::parse` and `Url::join`.  The
model below covers the hierarchical shapes this code path exercises:
absolute URLs of the form `scheme://host[:port][/path][?query]` and
scheme-less references (which `Url::parse` rejects with
`RelativeUrlWithoutBase`).  Fragments, userinfo, percent-encoding and
relative-path joins are outside the shapes used in this development. -/

structure UrlM where
  scheme : List Nat
  host : List Nat
  port : Option Nat
  path : List Nat
  query : Option (List Nat)
deriving DecidableEq, Repr

/-- Parse failures of the modelled `Url::parse`. -/
inductive UrlParseErrM
  | relativeWithoutBase
  | otherErr
deriving DecidableEq, Repr

/-- ASCII letter test. -/
def isAlphaByte (b : Nat) : Bool :=
  decide ((65 ≤ b ∧ b ≤ 90) ∨ (97 ≤ b ∧ b ≤ 122))

/-- Scheme-character test (`ALPHA / DIGIT / "+" / "-" / "."`). -/
def isSchemeByte (b : Nat) : Bool :=
  isAlphaByte b || decide (48 ≤ b ∧ b ≤ 57) || b == 43 || b == 45 || b == 46

/-- Split a leading `scheme:` off a reference: succeeds when the input
starts with a letter followed by scheme characters up to a `:`. -/
def schemeSplit : List Nat → Option (List Nat × List Nat)
  | l =>
    match memchr 58 l with
    | none => none
    | some i =>
      let sch := l.take i
      match sch with
      | [] => none
      | b :: rest =>
        if isAlphaByte b && rest.all isSchemeByte then some (sch, l.drop (i + 1))
        else none

/-- Decimal digits to a number, for the port. -/
def digitsToNat (l : List Nat) : Option Nat :=
  if l.isEmpty || !(l.all fun b => decide (48 ≤ b ∧ b ≤ 57)) then none
  else some (l.foldl (fun acc b => acc * 10 + (b - 48)) 0)

/-- Modelled `Url::parse` on the hierarchical shapes used here: a
scheme-less reference is `RelativeUrlWithoutBase`; `scheme://` is followed
by `host[:port]`, then a path (defaulted to `/`) and an optional `?query`. -/
def urlParseM (s : List Nat) : Except UrlParseErrM UrlM :=
  match schemeSplit s with
  | none => .error .relativeWithoutBase
  | some (sch, rest) =>
    if rest.take 2 = [47, 47] then
      let afterAuth := rest.drop 2
      let authEnd := (List.findIdx? (fun b => b == 47 || b == 63) afterAuth).getD afterAuth.length
      let auth := afterAuth.take authEnd
      let tail := afterAuth.drop authEnd
      let hostPort : List Nat × Option Nat :=
        match memchr 58 auth with
        | some i => (auth.take i, digitsToNat (auth.drop (i + 1)))
        | none => (auth, none)
      let pathQuery : List Nat × Option (List Nat) :=
        match tail with
        | [] => ([47], none)
        | 63 :: q => ([47], some q)
        | _ =>
          match memchr 63 tail with
          | some i => (tail.take i, some (tail.drop (i + 1)))
          | none => (tail, none)
      if hostPort.1.isEmpty then .error .otherErr
      else .ok ⟨sch, hostPort.1, hostPort.2, pathQuery.1, pathQuery.2⟩
    else .error .otherErr

/-- Modelled `Url::join` for the absolute-path reference form the
specification's scenarios exercise (`Location` values starting with `/`):
the base keeps its scheme, host and port, and the reference replaces path
and query.  Other reference forms are outside this development's scope. -/
def urlJoin (u : UrlM) (v : List Nat) : Except UrlParseErrM UrlM :=
  if v.take 1 = [47] then
    match memchr 63 v with
    | some i => .ok { u with path := v.take i, query := some (v.drop (i + 1)) }
    | none => .ok { u with path := v, query := none }
  else .error .otherErr

/-! ### Response classification (`http_get`) and the fetch loop
(`request_document`)

`http_get` writes a fixed-shape request, then reads the status line and
header lines through the `LineReader`.  The classification logic below is
modelled over the sequence of lines those `next_line` calls return. -/

/-- Rust `str::split` on a one-byte separator (used for `' '` and `';'`). -/
def splitByte (c : Nat) : List Nat → List (List Nat)
  | [] => [[]]
  | b :: rest =>
    if b = c then [] :: splitByte c rest
    else
      match splitByte c rest with
      | h :: t => (b :: h) :: t
      | [] => [[b]]

/-- Rust `str::split(": ")`: split on the two-byte separator `": "`,
leftmost-first. -/
def splitColonSpace : List Nat → List (List Nat)
  | [] => [[]]
  | [b] => [[b]]
  | b1 :: b2 :: rest =>
    if b1 = 58 ∧ b2 = 32 then [] :: splitColonSpace rest
    else
      match splitColonSpace (b2 :: rest) with
      | h :: t => (b1 :: h) :: t
      | [] => [[b1]]

/-- `enum ExpectedHeader` in `http_get`. -/
inductive ExpectedHeader
  | contentType
  | location
deriving DecidableEq, Repr

/-- `Document`: the classified fetch result.  The source's `Html` variant
carries an `HtmlBodyReader` (the line reader's stream and buffer); here the
classification keeps the URL, the reader hand-off being modelled by
`extractTitle`. -/
inductive DocM
  | unsupported (u : UrlM)
  | html (u : UrlM)
  | pdf (u : UrlM)
deriving DecidableEq, Repr

/-- `enum HttpResponse`: a classified document or a redirect target. -/
inductive HttpResponseM
  | okDoc (d : DocM)
  | redirect (u : UrlM)
deriving DecidableEq, Repr

/-- The `anyhow` failures of `http_get` and `request_document`. -/
inductive HErr
  | parseErr
  | unsupportedScheme
  | httpVersion
  | noStatus
  | unexpectedStatus
  | noExpectedHeader
  | invalidHeader
  | noData
  | urlErr
  | tooManyRedirects
deriving DecidableEq, Repr

/-- The request bytes `http_get` writes: the successive `push_str` calls on
the request string, with `url.path()` as the request target and
`url.host_str()` as the `Host` value. -/
def buildRequest (u : UrlM) : List Nat :=
  ascii "GET " ++ u.path ++ ascii " HTTP/1.1\r\nHost: " ++ u.host ++
    ascii "\r\nConnection: close\r\nAccept-Encoding: \r\nAccept: text/html,application/xhtml+xml,application/pdf,*/*;q=0\r\nUser-Agent: paket\r\n\r\n"

/-- Modelled from the spec (section 6): the request wire format with the
request target `<path[?query]>`, i.e. the URL's query string appended to the
path when one is present.  Stated for comparison with `buildRequest`, which
is transcribed from the source. -/
def specRequest (u : UrlM) : List Nat :=
  ascii "GET " ++ u.path ++
    (match u.query with
     | some q => 63 :: q
     | none => []) ++
    ascii " HTTP/1.1\r\nHost: " ++ u.host ++
    ascii "\r\nConnection: close\r\nAccept-Encoding: \r\nAccept: text/html,application/xhtml+xml,application/pdf,*/*;q=0\r\nUser-Agent: paket\r\n\r\n"

/-- The status-code table in `http_get`: `200`/`203` expect `Content-Type`,
the six redirect codes expect `Location`, anything else is
`bail!("unexpected status")`. -/
def statusToExpected (s : List Nat) : Except HErr ExpectedHeader :=
  if s = ascii "200" ∨ s = ascii "203" then .ok .contentType
  else if s = ascii "300" ∨ s = ascii "301" ∨ s = ascii "302" ∨ s = ascii "303" ∨
      s = ascii "307" ∨ s = ascii "308" then .ok .location
  else .error .unexpectedStatus

/-- Status-line handling in `http_get`: split on `' '`, require the first
token to be exactly `HTTP/1.1`, require a second token, and apply the status
table. -/
def processStatusLine (line : List Nat) : Except HErr ExpectedHeader :=
  match splitByte 32 line with
  | [] => .error .httpVersion
  | proto :: rest =>
    if proto = ascii "HTTP/1.1" then
      match rest with
      | [] => .error .noStatus
      | status :: _ => statusToExpected status
    else .error .httpVersion

/-- The `Content-Type` media-type match in `http_get`: the exact lowercase
and exact all-caps spellings of `text/html` and `application/xhtml+xml` give
`Html`, those of `application/pdf` give `Pdf`, anything else is
`Unsupported`. -/
def classifyMedia (u : UrlM) (mt : List Nat) : DocM :=
  if mt = ascii "text/html" ∨ mt = ascii "TEXT/HTML" ∨
      mt = ascii "application/xhtml+xml" ∨ mt = ascii "APPLICATION/XHTML+XML" then .html u
  else if mt = ascii "application/pdf" ∨ mt = ascii "APPLICATION/PDF" then .pdf u
  else .unsupported u

/-- The `Location` resolution in `http_get`: `Url::parse(value)`, with a
`RelativeUrlWithoutBase` failure replaced by `url.join(value)` against the
URL this `http_get` call was given. -/
def resolveLocation (u : UrlM) (v : List Nat) : Except HErr UrlM :=
  match urlParseM v with
  | .error .relativeWithoutBase =>
    match urlJoin u v with
    | .ok u' => .ok u'
    | .error _ => .error .urlErr
  | .ok u' => .ok u'
  | .error .otherErr => .error .urlErr

/-- The header loop in `http_get`: each line is split on `": "`; an empty
line is `bail!("no expected header")`; a matching header name (an exact
two-literal check) requires a value part, which is then resolved
(`Location`) or classified after stripping `;`-parameters
(`Content-Type`); a non-matching line continues the loop, and a `next_line`
failure at end of stream is modelled by `noData`. -/
def findHeader (exp : ExpectedHeader) (u : UrlM) : List (List Nat) → Except HErr HttpResponseM
  | [] => .error .noData
  | line :: rest =>
    if line.isEmpty then .error .noExpectedHeader
    else
      let parts := splitColonSpace line
      let headerName := parts.headD []
      let found : Bool :=
        match exp with
        | .contentType => headerName == ascii "Content-Type" || headerName == ascii "content-type"
        | .location => headerName == ascii "Location" || headerName == ascii "location"
      if found then
        match parts with
        | _ :: value :: _ =>
          match exp with
          | .location =>
            match resolveLocation u value with
            | .ok u' => .ok (.redirect u')
            | .error e => .error e
          | .contentType => .ok (.okDoc (classifyMedia u ((splitByte 59 value).headD [])))
        | _ => .error .invalidHeader
      else findHeader exp u rest

/-- The response side of `http_get`, over the lines the `LineReader`
returns: the first line is the status line, the rest feed the header loop. -/
def httpGetProcess (u : UrlM) : List (List Nat) → Except HErr HttpResponseM
  | [] => .error .noData
  | statusLine :: rest =>
    match processStatusLine statusLine with
    | .error e => .error e
    | .ok exp => findHeader exp u rest

/-- The `for _ in 0..MAX_REDIRECTS` loop of `request_document`: each
iteration checks the scheme, performs one fetch (`net hop url`, abstracting
the connection plus `http_get` for that hop), returns on a document, and
follows a redirect; an exhausted iteration budget is
`bail!("too many redirects")`. -/
def requestLoop (net : Nat → UrlM → Except HErr HttpResponseM) :
    Nat → Nat → UrlM → Except HErr DocM
  | _, 0, _ => .error .tooManyRedirects
  | hop, r + 1, u =>
    if u.scheme = ascii "http" ∨ u.scheme = ascii "https" then
      match net hop u with
      | .error e => .error e
      | .ok (.okDoc d) => .ok d
      | .ok (.redirect u') => requestLoop net (hop + 1) r u'
    else .error .unsupportedScheme

/-- `request_document` after URL parsing: `MAX_REDIRECTS = 5` loop
iterations starting from hop `0`. -/
def requestDocument (net : Nat → UrlM → Except HErr HttpResponseM) (u : UrlM) :
    Except HErr DocM :=
  requestLoop net 0 5 u

/-- A concrete URL (`http://example.com/old`) used to instantiate
scenarios. -/
def exampleUrl : UrlM :=
  ⟨ascii "http", ascii "example.com", none, ascii "/old", none⟩

/-! ### Helper lemmas -/

/-- Rust `str::split` always yields at least one segment. -/
theorem splitByte_ne_nil (c : Nat) (l : List Nat) : splitByte c l ≠ [] := by
  induction l with
  | nil => simp [splitByte]
  | cons b rest ih =>
    simp only [splitByte]
    split
    · simp
    · split
      · simp
      · simp

/-- One loop iteration of `request_document` on a redirect response: the
next iteration runs on the redirect target. -/
theorem requestLoop_redirect (net : Nat → UrlM → Except HErr HttpResponseM)
    (hop r : Nat) (u u' : UrlM)
    (hs : u.scheme = ascii "http" ∨ u.scheme = ascii "https")
    (h : net hop u = .ok (.redirect u')) :
    requestLoop net hop (r + 1) u = requestLoop net (hop + 1) r u' := by
  simp only [requestLoop]
  rw [if_pos hs, h]

/-- One loop iteration of `request_document` on a document response: the
document is returned. -/
theorem requestLoop_document (net : Nat → UrlM → Except HErr HttpResponseM)
    (hop r : Nat) (u : UrlM) (d : DocM)
    (hs : u.scheme = ascii "http" ∨ u.scheme = ascii "https")
    (h : net hop u = .ok (.okDoc d)) :
    requestLoop net hop (r + 1) u = .ok d := by
  simp only [requestLoop]
  rw [if_pos hs, h]

/-! ### Claims -/

/-- C1: the claim says a first `<title>…</title>` occurrence in the
concatenated input is always recovered, in particular when the whole
document is already buffered and the transport is at EOF.  The code
disagrees: with `<title>T</title>` fully buffered and the transport at EOF,
`extract_title` returns `Ok(None)` — after the `Attributes → Value`
transition the loop falls through to `read_buf` without first scanning the
buffered `T</title>`, and a zero-byte read breaks the loop. -/
theorem c1_buffered_title_lost_at_eof :
    extractTitle (ascii "<title>T</title>") [] = .ok none ∧
    (Except.ok none : Except Unit (Option (List Nat))) ≠ .ok (some (ascii "T")) :=
  ⟨rfl, fun h => Option.noConfusion (Except.ok.inj h)⟩

/-- C2: the claim says no unconsumed byte is ever discarded by
`next_line`.  The code disagrees: with an empty initial buffer and the
transport delivering `AB` then `CD\r\n`, the refill path executes
`buffer.drain(offset..)`, which drops the unconsumed tail `AB` and keeps
the consumed prefix, so the call returns the line `CD` (not `ABCD`) with
buffer `CD\r\n` and offset `4` — the hand-off buffer also still holds the
fully-consumed line. -/
theorem c2_line_reader_discards_unconsumed :
    nextLine [] 0 [.ok (ascii "AB"), .ok (ascii "CD\r\n")] =
      .line (ascii "CD") (ascii "CD\r\n") 4 [] ∧
    (∀ buf off rest, LROut.line (ascii "CD") (ascii "CD\r\n") 4 [] ≠
      .line (ascii "ABCD") buf off rest) :=
  ⟨rfl, fun _ _ _ h => by simp [ascii] at h⟩

/-- C9: the claim says a mid-stream read I/O error while the line reader
refills is surfaced as a typed error result, without a panic.  The code
disagrees: `read_more` calls `.unwrap()` on the `read_buf` result, so the
error is a panic instead.  Generally: whenever the unconsumed region holds
no terminator (the refill condition) and the next read errors, `next_line`
panics, whatever the buffer, offset and remaining transport; concretely so
on a transport delivering `AB` and then failing; and the panic outcome
coincides with no typed (`anyhow`) failure. -/
theorem c9_read_error_panics :
    (∀ (buffer : List Nat) (offset : Nat) (rest : List (Except Unit (List Nat))) (e : Unit),
      memchr 10 (buffer.drop offset) = none →
      nextLineLoop buffer offset (.error e :: rest) = .panicked) ∧
    nextLine [] 0 [.ok (ascii "AB"), .error ()] = .panicked ∧
    (∀ e : LRErr, LROut.panicked ≠ .fail e) := by
  refine ⟨?_, rfl, fun _ h => LROut.noConfusion h⟩
  intro buffer offset rest e h
  simp only [nextLineLoop, h]

/-- C9 witness: the refill panic at the concrete buffer `AB`, offset `0`,
with the transport reporting an I/O error. -/
theorem c9_read_error_panics_witness :
    nextLineLoop (ascii "AB") 0 [.error ()] = .panicked :=
  c9_read_error_panics.1 (ascii "AB") 0 [] () (by decide)

/-- C7 counterexample: in `Start` with the six buffered bytes `abcdef` and
no `<`, the drain retains the trailing five bytes `bcdef`, exceeding the
claimed bound of tag-name-length − 1 = 4 retained bytes. -/
theorem c7_retention_counterexample :
    stepStart (ascii "abcdef") = .more .start (ascii "bcdef") ∧
    ¬ (ascii "bcdef").length ≤ 4 :=
  ⟨by decide, by decide⟩

/-- C7 (amended): in the `Start` state, after scanning buffered content
containing no `<`, at most tag-name-length (5) bytes are retained before
refilling: the drain keeps exactly the trailing
`min (length) (HTML_TITLE_TAG.len())` bytes. -/
theorem c7_start_retention_amended (buffer : List Nat) (h : memchr 60 buffer = none) :
    stepStart buffer = .more .start (buffer.drop (buffer.length - htmlTitleTag.length)) ∧
    (buffer.drop (buffer.length - htmlTitleTag.length)).length ≤ htmlTitleTag.length := by
  constructor
  · simp only [stepStart, h]
  · rw [List.length_drop]
    omega

/-- C7 witness: the amended bound at the concrete buffer `abcdefgh`. -/
theorem c7_start_retention_amended_witness :
    stepStart (ascii "abcdefgh") =
      .more .start ((ascii "abcdefgh").drop ((ascii "abcdefgh").length - htmlTitleTag.length)) ∧
    ((ascii "abcdefgh").drop ((ascii "abcdefgh").length - htmlTitleTag.length)).length ≤
      htmlTitleTag.length :=
  c7_start_retention_amended (ascii "abcdefgh") (by decide)

/-- C10 counterexample: the claim quantifies over every input whose first
`<` opens a tag name that merely begins with `title`; with
`<titles>x</titles>` fully buffered and the transport at EOF the extractor
returns `Ok(None)` rather than the content `x` (the same missing
re-scan before the EOF break as in C1). -/
theorem c10_buffered_eof_counterexample :
    extractTitle (ascii "<titles>x</titles>") [] = .ok none ∧
    (Except.ok none : Except Unit (Option (List Nat))) ≠ .ok (some (ascii "x")) :=
  ⟨rfl, fun h => Option.noConfusion (Except.ok.inj h)⟩

/-- C10 (amended): in the `Name` state only the first 5 bytes after `<` are
compared against `title` — any buffer extending the literal `title` is
accepted into `Attributes` regardless of what follows — and when the
transport still supplies data after the opening tag, `<titles>x</titles>`
yields the title `x`. -/
theorem c10_prefix_match_amended :
    (∀ tail : List Nat,
      stepT .name (htmlTitleTag ++ tail) = stepAttributes (htmlTitleTag ++ tail)) ∧
    extractTitle [] [ascii "<titles>", ascii "x</titles>"] = .ok (some (ascii "x")) := by
  constructor
  · intro tail
    have htake : (htmlTitleTag ++ tail).take htmlTitleTag.length = htmlTitleTag :=
      List.take_left _ _
    simp only [stepT, stepName, htake]
    rw [if_pos (by simp [List.length_append]), if_pos (by decide), if_pos (by decide)]
  · rfl

/-- C3 counterexample: the claim says any chain of 5 or fewer redirects
followed by a success succeeds; with a server that redirects on the first
five fetches and succeeds on the sixth, `request_document` exhausts its
five loop iterations on the redirects and fails with too-many-redirects. -/
theorem c3_five_redirects_then_ok_fails :
    requestDocument
      (fun hop _ =>
        if hop < 5 then .ok (.redirect exampleUrl) else .ok (.okDoc (.pdf exampleUrl)))
      exampleUrl = .error .tooManyRedirects :=
  rfl

/-- C3 (amended): the loop performs at most `MAX_REDIRECTS = 5` fetches, so
five consecutive redirect responses already exhaust it and yield
too-many-redirects (a fortiori a chain redirecting 6 times), while a chain
of at most 4 redirects followed by a success response succeeds. -/
theorem c3_redirect_bound_amended :
    (∀ (net : Nat → UrlM → Except HErr HttpResponseM) (urls : Nat → UrlM),
      (∀ i, i < 5 → (urls i).scheme = ascii "http") →
      (∀ i, i < 5 → net i (urls i) = .ok (.redirect (urls (i + 1)))) →
      requestDocument net (urls 0) = .error .tooManyRedirects) ∧
    (∀ (net : Nat → UrlM → Except HErr HttpResponseM) (urls : Nat → UrlM) (d : DocM) (k : Nat),
      k ≤ 4 →
      (∀ i, i ≤ k → (urls i).scheme = ascii "http") →
      (∀ i, i < k → net i (urls i) = .ok (.redirect (urls (i + 1)))) →
      net k (urls k) = .ok (.okDoc d) →
      requestDocument net (urls 0) = .ok d) := by
  constructor
  · intro net urls hs hr
    unfold requestDocument
    rw [requestLoop_redirect net 0 4 _ _ (Or.inl (hs 0 (by omega))) (hr 0 (by omega)),
      requestLoop_redirect net 1 3 _ _ (Or.inl (hs 1 (by omega))) (hr 1 (by omega)),
      requestLoop_redirect net 2 2 _ _ (Or.inl (hs 2 (by omega))) (hr 2 (by omega)),
      requestLoop_redirect net 3 1 _ _ (Or.inl (hs 3 (by omega))) (hr 3 (by omega)),
      requestLoop_redirect net 4 0 _ _ (Or.inl (hs 4 (by omega))) (hr 4 (by omega))]
    rfl
  · intro net urls d k hk hs hr hok
    unfold requestDocument
    interval_cases k
    · exact requestLoop_document net 0 4 _ _ (Or.inl (hs 0 (by omega))) hok
    · rw [requestLoop_redirect net 0 4 _ _ (Or.inl (hs 0 (by omega))) (hr 0 (by omega))]
      exact requestLoop_document net 1 3 _ _ (Or.inl (hs 1 (by omega))) hok
    · rw [requestLoop_redirect net 0 4 _ _ (Or.inl (hs 0 (by omega))) (hr 0 (by omega)),
        requestLoop_redirect net 1 3 _ _ (Or.inl (hs 1 (by omega))) (hr 1 (by omega))]
      exact requestLoop_document net 2 2 _ _ (Or.inl (hs 2 (by omega))) hok
    · rw [requestLoop_redirect net 0 4 _ _ (Or.inl (hs 0 (by omega))) (hr 0 (by omega)),
        requestLoop_redirect net 1 3 _ _ (Or.inl (hs 1 (by omega))) (hr 1 (by omega)),
        requestLoop_redirect net 2 2 _ _ (Or.inl (hs 2 (by omega))) (hr 2 (by omega))]
      exact requestLoop_document net 3 1 _ _ (Or.inl (hs 3 (by omega))) hok
    · rw [requestLoop_redirect net 0 4 _ _ (Or.inl (hs 0 (by omega))) (hr 0 (by omega)),
        requestLoop_redirect net 1 3 _ _ (Or.inl (hs 1 (by omega))) (hr 1 (by omega)),
        requestLoop_redirect net 2 2 _ _ (Or.inl (hs 2 (by omega))) (hr 2 (by omega)),
        requestLoop_redirect net 3 1 _ _ (Or.inl (hs 3 (by omega))) (hr 3 (by omega))]
      exact requestLoop_document net 4 0 _ _ (Or.inl (hs 4 (by omega))) hok

/-- C3 witness: a server that always redirects exhausts the bound, and one
that immediately succeeds returns its document. -/
theorem c3_redirect_bound_amended_witness :
    requestDocument (fun _ _ => .ok (.redirect exampleUrl)) exampleUrl =
      .error .tooManyRedirects ∧
    requestDocument (fun _ _ => .ok (.okDoc (.pdf exampleUrl))) exampleUrl =
      .ok (.pdf exampleUrl) := by
  constructor
  · exact c3_redirect_bound_amended.1 (fun _ _ => .ok (.redirect exampleUrl))
      (fun _ => exampleUrl) (fun i _ => rfl) (fun i _ => rfl)
  · exact c3_redirect_bound_amended.2 (fun _ _ => .ok (.okDoc (.pdf exampleUrl)))
      (fun _ => exampleUrl) (.pdf exampleUrl) 0 (by omega) (fun i _ => rfl)
      (fun i h => absurd h (Nat.not_lt_zero i)) rfl

/-- C4 counterexample: for the URL `http://example.com/a?b=c` the written
request target is `url.path()` alone, so the request differs from the
claimed `<path[?query]>` wire format, which includes the query string. -/
theorem c4_query_omitted_counterexample :
    buildRequest ⟨ascii "http", ascii "example.com", none, ascii "/a", some (ascii "b=c")⟩ ≠
      specRequest ⟨ascii "http", ascii "example.com", none, ascii "/a", some (ascii "b=c")⟩ := by
  decide

/-- C4 (amended): the request written to the transport is exactly the fixed
wire format of the claim with the URL's path alone as the request target —
the query string is never included; on query-less URLs this coincides with
the claimed format. -/
theorem c4_request_format_amended :
    (∀ u : UrlM, buildRequest u =
      ascii "GET " ++ u.path ++ ascii " HTTP/1.1\r\nHost: " ++ u.host ++
        ascii "\r\nConnection: close\r\nAccept-Encoding: \r\nAccept: text/html,application/xhtml+xml,application/pdf,*/*;q=0\r\nUser-Agent: paket\r\n\r\n") ∧
    (∀ u : UrlM, u.query = none → buildRequest u = specRequest u) := by
  constructor
  · intro u
    rfl
  · intro u h
    simp [buildRequest, specRequest, h]

/-- C4 witness: on the query-less `http://example.com/old` the written
request coincides with the claimed wire format. -/
theorem c4_request_format_amended_witness :
    buildRequest exampleUrl = specRequest exampleUrl :=
  c4_request_format_amended.2 exampleUrl rfl

/-- C5: `http_get` fails with the version error whenever the status line's
first space-separated token is not exactly `HTTP/1.1`; the status table
maps `200`/`203` to Content-Type, the six redirect codes to Location, and
every other status string to the unexpected-status failure; and an accepted
status line hands over to the scan for the selected expected header. -/
theorem c5_status_line_table :
    (∀ (u : UrlM) (line : List Nat) (rest : List (List Nat)),
      (splitByte 32 line).headD [] ≠ ascii "HTTP/1.1" →
      httpGetProcess u (line :: rest) = .error .httpVersion) ∧
    (statusToExpected (ascii "200") = .ok .contentType ∧
      statusToExpected (ascii "203") = .ok .contentType ∧
      statusToExpected (ascii "300") = .ok .location ∧
      statusToExpected (ascii "301") = .ok .location ∧
      statusToExpected (ascii "302") = .ok .location ∧
      statusToExpected (ascii "303") = .ok .location ∧
      statusToExpected (ascii "307") = .ok .location ∧
      statusToExpected (ascii "308") = .ok .location) ∧
    (∀ s : List Nat,
      s ∉ [ascii "200", ascii "203", ascii "300", ascii "301", ascii "302",
        ascii "303", ascii "307", ascii "308"] →
      statusToExpected s = .error .unexpectedStatus) ∧
    (∀ (u : UrlM) (line : List Nat) (rest : List (List Nat)) (exp : ExpectedHeader),
      processStatusLine line = .ok exp →
      httpGetProcess u (line :: rest) = findHeader exp u rest) := by
  refine ⟨?_, ⟨rfl, rfl, rfl, rfl, rfl, rfl, rfl, rfl⟩, ?_, ?_⟩
  · intro u line rest h
    have hp : processStatusLine line = .error .httpVersion := by
      cases hsp : splitByte 32 line with
      | nil => exact absurd hsp (splitByte_ne_nil 32 line)
      | cons p t =>
        rw [hsp] at h
        simp only [List.headD_cons] at h
        simp [processStatusLine, hsp, h]
    simp [httpGetProcess, hp]
  · intro s h
    simp only [List.mem_cons, List.mem_singleton, not_or] at h
    obtain ⟨h1, h2, h3, h4, h5, h6, h7, h8⟩ := h
    simp [statusToExpected, h1, h2, h3, h4, h5, h6, h7, h8]
  · intro u line rest exp h
    simp [httpGetProcess, h]

/-- C5 witness: a non-`HTTP/1.1` protocol token fails, status `404` is
rejected by the table, and an accepted `200` status line hands over to the
Content-Type scan. -/
theorem c5_status_line_table_witness :
    httpGetProcess exampleUrl [ascii "SIP/2.0 200 OK"] = .error .httpVersion ∧
    statusToExpected (ascii "404") = .error .unexpectedStatus ∧
    httpGetProcess exampleUrl [ascii "HTTP/1.1 200 OK", ascii "Content-Type: text/html"] =
      findHeader .contentType exampleUrl [ascii "Content-Type: text/html"] := by
  refine ⟨?_, ?_, ?_⟩
  · exact c5_status_line_table.1 exampleUrl (ascii "SIP/2.0 200 OK") [] (by decide)
  · exact c5_status_line_table.2.2.1 (ascii "404") (by decide)
  · exact c5_status_line_table.2.2.2 exampleUrl (ascii "HTTP/1.1 200 OK")
      [ascii "Content-Type: text/html"] .contentType rfl

/-- C6 counterexample: the claim says any casing of the media type is
recognized; the code's match lists only the exact lowercase and exact
all-caps spellings, so `Content-Type: Text/Html` on a `200` response is
classified `Unsupported`, not `Html`. -/
theorem c6_mixed_case_media_counterexample :
    httpGetProcess exampleUrl [ascii "HTTP/1.1 200 OK", ascii "Content-Type: Text/Html"] =
      .ok (.okDoc (.unsupported exampleUrl)) ∧
    (Except.ok (HttpResponseM.okDoc (.unsupported exampleUrl)) : Except HErr HttpResponseM) ≠
      .ok (.okDoc (.html exampleUrl)) :=
  ⟨rfl, fun h => by simpa using Except.ok.inj h⟩

/-- C6 (amended): tag-name matching in the `Name` state is fully
case-insensitive (any buffer whose leading five bytes case-insensitively
equal `title` is accepted; `<TiTlE>Hello Title!</TiTlE>` yields
`Hello Title!`), while response classification recognizes exactly the
all-lowercase and all-uppercase spellings of the three media types, with
parameters after `;` stripped. -/
theorem c6_case_insensitivity_amended :
    (∀ t : List Nat, t.length ≥ htmlTitleTag.length →
      validUtf8 (t.take htmlTitleTag.length) = true →
      eqIgnoreAsciiCase htmlTitleTag (t.take htmlTitleTag.length) = true →
      stepT .name t = stepAttributes t) ∧
    extractTitle [] [ascii "<TiTlE>", ascii "Hello Title!</TiTlE>"] =
      .ok (some (ascii "Hello Title!")) ∧
    (∀ u : UrlM,
      httpGetProcess u [ascii "HTTP/1.1 200 OK", ascii "Content-Type: text/html"] =
        .ok (.okDoc (.html u)) ∧
      httpGetProcess u [ascii "HTTP/1.1 200 OK", ascii "Content-Type: TEXT/HTML; charset=utf-8"] =
        .ok (.okDoc (.html u)) ∧
      httpGetProcess u [ascii "HTTP/1.1 200 OK", ascii "Content-Type: application/xhtml+xml"] =
        .ok (.okDoc (.html u)) ∧
      httpGetProcess u
          [ascii "HTTP/1.1 200 OK", ascii "Content-Type: APPLICATION/XHTML+XML; charset=utf-8"] =
        .ok (.okDoc (.html u)) ∧
      httpGetProcess u [ascii "HTTP/1.1 200 OK", ascii "Content-Type: application/pdf"] =
        .ok (.okDoc (.pdf u)) ∧
      httpGetProcess u [ascii "HTTP/1.1 200 OK", ascii "Content-Type: APPLICATION/PDF"] =
        .ok (.okDoc (.pdf u))) := by
  refine ⟨?_, rfl, fun u => ⟨rfl, rfl, rfl, rfl, rfl, rfl⟩⟩
  intro t h1 h2 h3
  simp only [stepT, stepName]
  rw [if_pos h1, if_pos h2, if_pos h3]

/-- C6 witness: the Name-state acceptance at the concrete buffer
`TiTlE>`. -/
theorem c6_case_insensitivity_amended_witness :
    stepT .name (ascii "TiTlE>") = stepAttributes (ascii "TiTlE>") :=
  c6_case_insensitivity_amended.1 (ascii "TiTlE>") (by decide) (by decide) (by decide)

/-- C8: the fetch loop hands the redirect target of each hop to the next
iteration, and `http_get` resolves a relative `Location` value against the
URL it was called with — for every current URL `u`, a `301` with
`Location: /new/path` redirects to `u` with its path replaced by
`/new/path`; instantiated at `http://example.com/old` this is
`http://example.com/new/path`. -/
theorem c8_relative_location_current_url :
    (∀ (net : Nat → UrlM → Except HErr HttpResponseM) (hop r : Nat) (u u' : UrlM),
      (u.scheme = ascii "http" ∨ u.scheme = ascii "https") →
      net hop u = .ok (.redirect u') →
      requestLoop net hop (r + 1) u = requestLoop net (hop + 1) r u') ∧
    (∀ u : UrlM,
      httpGetProcess u [ascii "HTTP/1.1 301 Moved", ascii "Location: /new/path"] =
        .ok (.redirect { u with path := ascii "/new/path", query := none })) ∧
    httpGetProcess exampleUrl [ascii "HTTP/1.1 301 Moved", ascii "Location: /new/path"] =
      .ok (.redirect ⟨ascii "http", ascii "example.com", none, ascii "/new/path", none⟩) :=
  ⟨requestLoop_redirect, fun _ => rfl, rfl⟩

/-- C8 witness: one loop iteration on a concrete always-redirecting server
continues from the redirect target. -/
theorem c8_relative_location_current_url_witness :
    requestLoop (fun _ _ => .ok (.redirect exampleUrl)) 0 5 exampleUrl =
      requestLoop (fun _ _ => .ok (.redirect exampleUrl)) 1 4 exampleUrl :=
  c8_relative_location_current_url.1 (fun _ _ => .ok (.redirect exampleUrl)) 0 4
    exampleUrl exampleUrl (Or.inl rfl) rfl

end Paket
